import Mathlib

/-!
Shallow embedding of the `FactoryComponent` trait from
`src/relm4/src/factory/sync/traits.rs`.

The trait declares the hook methods that a factory-managed component
implements, together with default bodies for the optional ones.  Each Rust
method is modelled as a pure Lean function: a mutable receiver or argument
becomes explicit state passing, and messages emitted through a sender handle
are collected in a `List E` writer output (the default bodies, whose Rust
bodies are empty, emit nothing).  `sender.clone()` in the source denotes a
second handle to the same channel, so both callees receive the same sender
value here.
-/

section Embedding

/-- Collection of the overridable hook methods of the `FactoryComponent`
trait, one Lean function per Rust method.  Type parameters: `Init` the
initialisation parameter, `Ix` the dynamic index, `Rt` the root widget,
`RW` the returned widget of the parent view, `S` the factory sender, `OS`
the plain output sender passed to `shutdown`, `E` the effects a method can
emit through its sender, `M` the model (`Self`), `W` the widgets bundle,
`I` the input messages, `C` the command outputs, `O` the outputs, `P` the
parent input messages.  A mutable receiver (`&mut self`) becomes an `M`
argument with an `M` in the result; `init_root` takes `&self` and no sender,
hence is a plain function of the model. -/
structure FactoryComponent (Init Ix Rt RW S OS E M W I C O P : Type) where
  init_model : Init → Ix → S → M × List E
  init_root : M → Rt
  init_widgets : M → Ix → Rt → RW → S → (M × W) × List E
  output_to_parent_input : O → Option P
  update : M → I → S → M × List E
  update_cmd : M → C → S → M × List E
  update_view : M → W → S → W × List E
  shutdown : M → W → OS → (M × W) × List E

variable {Init Ix Rt RW S OS E M W I C O P : Type}

/-- Default body of `output_to_parent_input`: returns `None`, forwarding
nothing (source lines 57-59). -/
def output_to_parent_input_default {O P : Type} (_o : O) : Option P := none

/-- Default body of `update`: the body is empty, so the model is returned
unchanged and nothing is emitted (source line 63). -/
def update_default {M I S E : Type} (m : M) (_msg : I) (_s : S) : M × List E := (m, [])

/-- Default body of `update_cmd`: the body is empty (source line 67). -/
def update_cmd_default {M C S E : Type} (m : M) (_msg : C) (_s : S) : M × List E := (m, [])

/-- Default body of `update_view`: the body is empty, so the widgets are
returned unchanged and nothing is emitted (source line 82). -/
def update_view_default {M W S E : Type} (_m : M) (w : W) (_s : S) : W × List E := (w, [])

/-- Default body of `shutdown`: the body is empty (source line 97). -/
def shutdown_default {M W OS E : Type} (m : M) (w : W) (_out : OS) : (M × W) × List E :=
  ((m, w), [])

/-- Default body of `update_with_view` (source lines 85-93):
first `self.update(message, sender.clone())`, then
`self.update_view(widgets, sender)` on the updated model. -/
def update_with_view_default (fc : FactoryComponent Init Ix Rt RW S OS E M W I C O P)
    (m : M) (w : W) (msg : I) (s : S) : (M × W) × List E :=
  let r₁ := fc.update m msg s
  let r₂ := fc.update_view r₁.1 w s
  ((r₁.1, r₂.1), r₁.2 ++ r₂.2)

/-- Default body of `update_cmd_with_view` (source lines 70-78):
first `self.update_cmd(message, sender.clone())`, then
`self.update_view(widgets, sender)` on the updated model. -/
def update_cmd_with_view_default (fc : FactoryComponent Init Ix Rt RW S OS E M W I C O P)
    (m : M) (w : W) (msg : C) (s : S) : (M × W) × List E :=
  let r₁ := fc.update_cmd m msg s
  let r₂ := fc.update_view r₁.1 w s
  ((r₁.1, r₂.1), r₁.2 ++ r₂.2)

/-- Instrumentation of an arbitrary implementation: the model additionally
carries a counter of `update`/`update_cmd` calls and the widgets carry the
number of `update_view` calls together with the value of the model counter
that the most recent `update_view` call observed.  Running the default
composed entry points on the instrumented component derives how many times
each hook ran and which model state `update_view` saw. -/
def countCalls (fc : FactoryComponent Init Ix Rt RW S OS E M W I C O P) :
    FactoryComponent Init Ix Rt RW S OS E (M × Nat) (W × Nat × Nat) I C O P where
  init_model := fun ini ix s =>
    let r := fc.init_model ini ix s
    ((r.1, 0), r.2)
  init_root := fun mk => fc.init_root mk.1
  init_widgets := fun mk ix rt rw s =>
    let r := fc.init_widgets mk.1 ix rt rw s
    (((r.1.1, mk.2), (r.1.2, 0, 0)), r.2)
  output_to_parent_input := fc.output_to_parent_input
  update := fun mk msg s =>
    let r := fc.update mk.1 msg s
    ((r.1, mk.2 + 1), r.2)
  update_cmd := fun mk msg s =>
    let r := fc.update_cmd mk.1 msg s
    ((r.1, mk.2 + 1), r.2)
  update_view := fun mk wj s =>
    let r := fc.update_view mk.1 wj.1 s
    ((r.1, wj.2.1 + 1, mk.2), r.2)
  shutdown := fun mk wj out =>
    let r := fc.shutdown mk.1 wj.1 out
    (((r.1.1, mk.2), (r.1.2, wj.2)), r.2)

/-- State of one live component instance: its model together with its
widgets bundle. -/
structure InstanceState (M W : Type) where
  model : M
  widgets : W

/-- Invocation of `update_view` on a live instance.  The Rust receiver is
`&self` and only `widgets` is `&mut`, so the model component of the instance
is carried through unchanged. -/
def runUpdateView (fc : FactoryComponent Init Ix Rt RW S OS E M W I C O P)
    (st : InstanceState M W) (s : S) : InstanceState M W × List E :=
  let r := fc.update_view st.model st.widgets s
  (⟨st.model, r.1⟩, r.2)

/-- Invocation of `update` on a live instance: the method receives no
widgets argument at all, so the widgets component is carried through. -/
def runUpdate (fc : FactoryComponent Init Ix Rt RW S OS E M W I C O P)
    (st : InstanceState M W) (msg : I) (s : S) : InstanceState M W × List E :=
  let r := fc.update st.model msg s
  (⟨r.1, st.widgets⟩, r.2)

/-- Invocation of `update_cmd` on a live instance: the method receives no
widgets argument at all, so the widgets component is carried through. -/
def runUpdateCmd (fc : FactoryComponent Init Ix Rt RW S OS E M W I C O P)
    (st : InstanceState M W) (msg : C) (s : S) : InstanceState M W × List E :=
  let r := fc.update_cmd st.model msg s
  (⟨r.1, st.widgets⟩, r.2)

end Embedding

section Lifecycle

/-- Message delivered to a live instance: either an input or the output of a
background command. -/
inductive LiveMsg (I C : Type) where
  | input : I → LiveMsg I C
  | cmd : C → LiveMsg I C

/-- Names of the calls the runtime makes on one instance. -/
inductive MCall where
  | initModelC
  | initRootC
  | initWidgetsC
  | updateWithViewC
  | updateCmdWithViewC
  | shutdownC
deriving DecidableEq

/-- The three initialisation calls, in the order the spec fixes. -/
def initCalls : List MCall := [MCall.initModelC, MCall.initRootC, MCall.initWidgetsC]

/-- The live-phase call made for one delivered message. -/
def liveCall : LiveMsg I C → MCall
  | .input _ => MCall.updateWithViewC
  | .cmd _ => MCall.updateCmdWithViewC

variable {I C : Type}

/-- Modelled from the spec: the call trace the factory runtime (not under
`src/`, only the trait is) performs on one instance during its lifetime —
`init_model`, `init_root`, `init_widgets` in that order, then one composed
update entry point per delivered message, and finally `shutdown` exactly
when the slot is removed before the instance is discarded. -/
def lifecycleCalls (msgs : List (LiveMsg I C)) (shut : Bool) : List MCall :=
  initCalls ++ msgs.map liveCall ++ (if shut then [MCall.shutdownC] else [])

/-- Helper: a call name that is neither of the two live-phase calls nor the
shutdown call never occurs after the initialisation prefix. -/
theorem not_mem_tail (x : MCall) (msgs : List (LiveMsg I C)) (shut : Bool)
    (hx : ∀ m : LiveMsg I C, liveCall m ≠ x) (hs : x ≠ MCall.shutdownC) :
    x ∉ msgs.map liveCall ++ (if shut then [MCall.shutdownC] else []) := by
  intro hmem
  rcases List.mem_append.mp hmem with h | h
  · rcases List.mem_map.mp h with ⟨m, _, hm⟩
    exact hx m hm
  · cases shut with
    | true => simp at h; exact hs h
    | false => simp at h

/-- Helper: the live-phase calls are distinct from every other call name. -/
theorem liveCall_ne (m : LiveMsg I C) :
    liveCall m ≠ MCall.initModelC ∧ liveCall m ≠ MCall.initRootC ∧
    liveCall m ≠ MCall.initWidgetsC ∧ liveCall m ≠ MCall.shutdownC := by
  cases m <;> simp [liveCall]

/-- Helper: the shutdown call never appears strictly before the end of a
lifecycle trace. -/
theorem shutdown_last (msgs : List (LiveMsg I C)) (shut : Bool) :
    MCall.shutdownC ∉ (lifecycleCalls msgs shut).dropLast := by
  cases shut with
  | true =>
    have h : lifecycleCalls msgs true =
        (initCalls ++ msgs.map liveCall) ++ [MCall.shutdownC] := by
      simp [lifecycleCalls]
    rw [h, List.dropLast_concat]
    intro hmem
    rcases List.mem_append.mp hmem with h₁ | h₂
    · simp [initCalls] at h₁
    · rcases List.mem_map.mp h₂ with ⟨m, _, hm⟩
      exact (liveCall_ne m).2.2.2 hm
  | false =>
    intro hmem
    have hfull : MCall.shutdownC ∈ lifecycleCalls msgs false :=
      List.dropLast_subset _ hmem
    have h : lifecycleCalls msgs false = initCalls ++ msgs.map liveCall := by
      simp [lifecycleCalls]
    rw [h] at hfull
    rcases List.mem_append.mp hfull with h₁ | h₂
    · simp [initCalls] at h₁
    · rcases List.mem_map.mp h₂ with ⟨m, _, hm⟩
      exact (liveCall_ne m).2.2.2 hm

end Lifecycle

section Driver

variable {Init Ix Rt RW S OS E M W I C O P : Type}

/-- Modelled from the spec: one step of the live phase — the runtime
delivers either an input message or a command output and the matching
composed default entry point runs, so every state mutation is followed by
the mandatory view refresh. -/
def runLiveStep (fc : FactoryComponent Init Ix Rt RW S OS E M W I C O P) (s : S)
    (st : InstanceState M W) : LiveMsg I C → InstanceState M W
  | .input i =>
    let r := update_with_view_default fc st.model st.widgets i s
    ⟨r.1.1, r.1.2⟩
  | .cmd c =>
    let r := update_cmd_with_view_default fc st.model st.widgets c s
    ⟨r.1.1, r.1.2⟩

/-- Modelled from the spec: the whole lifetime of one instance —
`init_model`, then `init_root`, then `init_widgets` building the one widgets
bundle, then the live-phase messages in order, and finally `shutdown` when
the slot is removed. -/
def runInstance (fc : FactoryComponent Init Ix Rt RW S OS E M W I C O P)
    (ini : Init) (ix : Ix) (rw : RW) (s : S) (os : OS)
    (msgs : List (LiveMsg I C)) (shut : Bool) : InstanceState M W :=
  let m₀ := (fc.init_model ini ix s).1
  let rt := fc.init_root m₀
  let iw := (fc.init_widgets m₀ ix rt rw s).1
  let live := msgs.foldl (runLiveStep fc s) ⟨iw.1, iw.2⟩
  if shut then
    let r := (fc.shutdown live.model live.widgets os).1
    ⟨r.1, r.2⟩
  else live

/-- Concrete implementation whose overridden `shutdown` rewrites the widgets
bundle, exercising the mutable widgets access that the `shutdown` signature
(source line 97, argument `widgets: &mut Self::Widgets`) grants. -/
def shutdownMutator :
    FactoryComponent Unit Unit Unit Unit Unit Unit Unit Nat Nat Unit Unit Unit Unit where
  init_model := fun _ _ _ => (0, [])
  init_root := fun _ => ()
  init_widgets := fun m _ _ _ _ => ((m, 0), [])
  output_to_parent_input := fun _ => none
  update := fun m _ _ => (m, [])
  update_cmd := fun m _ _ => (m, [])
  update_view := fun _ w _ => (w, [])
  shutdown := fun m w _ => ((m, w + 1), [])

end Driver

section Identifier

/-- Hexadecimal rendering of an address, as the pointer format specifier
produces. -/
def formatPointer (addr : Nat) : String := "0x" ++ (Nat.toDigits 16 addr).asString

/-- Default body of `id` (source lines 103-105).  The Rust receiver `self`
already has reference type, and the formatted expression is the further
reference to the local binding `self` of the particular call; the pointer
format renders the address held by that outer reference, which is the stack
address of the local `self` binding for this call — not the address of the
component the method is invoked on.  The computation therefore depends only
on where the call at hand stored its `self` reference. -/
def id_default (selfRefAddr : Nat) : String := formatPointer selfRefAddr

/-- Live instance identified by the address of its allocation, carrying its
model state. -/
structure LiveInstance (M : Type) where
  addr : Nat
  model : M

/-- Invocation of the default `id` on an instance: the result is computed
from the stack slot of the `self` reference alone; no part of the instance
itself (neither its address nor its model) enters the computation. -/
def callIdDefault {M : Type} (_inst : LiveInstance M) (selfRefAddr : Nat) : String :=
  id_default selfRefAddr

end Identifier

section Signatures

/-- The eleven methods of the `FactoryComponent` trait. -/
inductive TraitMethod where
  | init_model
  | init_root
  | init_widgets
  | output_to_parent_input
  | update
  | update_cmd
  | update_cmd_with_view
  | update_view
  | update_with_view
  | shutdown
  | id
deriving DecidableEq

/-- Shape of a method result type: a plain value (possibly unit), a Rust
`Option`, or a Rust `Result` error channel. -/
inductive ReturnShape where
  | plainValue
  | optionValue
  | resultValue
deriving DecidableEq

/-- Return shape of each trait method, read off the signatures in the
source: every method returns a plain value except
`output_to_parent_input`, which returns `Option<Self::ParentInput>`
(source line 57); no signature returns a `Result`. -/
def returnShape : TraitMethod → ReturnShape
  | .output_to_parent_input => ReturnShape.optionValue
  | _ => ReturnShape.plainValue

end Signatures

section ClaimTheorems

/-- C1: the default `update_with_view` is exactly `update` followed by
`update_view`.  First conjunct: for every implementation, model, widgets,
message and sender, the result is the updated model paired with
`update_view` applied to the post-`update` model, with the emissions of the
two calls in that order.  Second conjunct, on the call-counting
instrumentation: starting from zero counters, the final model counter is 1
(`update` ran exactly once), the final widget counter is 1 (`update_view`
ran exactly once), and the model counter `update_view` observed is 1 (it
saw the post-`update` state). -/
theorem update_with_view_default_composes :
    ∀ (Init Ix Rt RW S OS E M W I C O P : Type)
      (fc : FactoryComponent Init Ix Rt RW S OS E M W I C O P)
      (m : M) (w : W) (msg : I) (s : S),
      update_with_view_default fc m w msg s =
        (((fc.update m msg s).1, (fc.update_view (fc.update m msg s).1 w s).1),
          (fc.update m msg s).2 ++ (fc.update_view (fc.update m msg s).1 w s).2) ∧
      update_with_view_default (countCalls fc) (m, 0) (w, 0, 0) msg s =
        ((((fc.update m msg s).1, 1),
          ((fc.update_view (fc.update m msg s).1 w s).1, 1, 1)),
          (fc.update m msg s).2 ++ (fc.update_view (fc.update m msg s).1 w s).2) :=
  fun _ _ _ _ _ _ _ _ _ _ _ _ _ _ _ _ _ _ => ⟨rfl, rfl⟩

/-- C2: the default `update_cmd_with_view` is exactly `update_cmd` followed
by `update_view`: the result is the post-`update_cmd` model paired with
`update_view` applied to that model, and on the call-counting
instrumentation each of the two hooks ran exactly once with `update_view`
observing the post-`update_cmd` model counter. -/
theorem update_cmd_with_view_default_composes :
    ∀ (Init Ix Rt RW S OS E M W I C O P : Type)
      (fc : FactoryComponent Init Ix Rt RW S OS E M W I C O P)
      (m : M) (w : W) (msg : C) (s : S),
      update_cmd_with_view_default fc m w msg s =
        (((fc.update_cmd m msg s).1, (fc.update_view (fc.update_cmd m msg s).1 w s).1),
          (fc.update_cmd m msg s).2 ++ (fc.update_view (fc.update_cmd m msg s).1 w s).2) ∧
      update_cmd_with_view_default (countCalls fc) (m, 0) (w, 0, 0) msg s =
        ((((fc.update_cmd m msg s).1, 1),
          ((fc.update_view (fc.update_cmd m msg s).1 w s).1, 1, 1)),
          (fc.update_cmd m msg s).2 ++ (fc.update_view (fc.update_cmd m msg s).1 w s).2) :=
  fun _ _ _ _ _ _ _ _ _ _ _ _ _ _ _ _ _ _ => ⟨rfl, rfl⟩

/-- C3: the default `output_to_parent_input` returns `none` on every output
value, so nothing is ever forwarded to the parent. -/
theorem output_to_parent_input_default_forwards_nothing :
    ∀ (O P : Type) (o : O), @output_to_parent_input_default O P o = none :=
  fun _ _ _ => rfl

/-- C5: the default bodies of `update`, `update_cmd` and `shutdown` are
no-ops: for every model, widgets bundle, message and sender they return the
state unchanged and emit nothing. -/
theorem default_update_update_cmd_shutdown_noop :
    ∀ (M W I C S OS E : Type) (m : M) (w : W) (i : I) (c : C) (s : S) (os : OS),
      @update_default M I S E m i s = (m, []) ∧
      @update_cmd_default M C S E m c s = (m, []) ∧
      @shutdown_default M W OS E m w os = ((m, w), []) :=
  fun _ _ _ _ _ _ _ _ _ _ _ _ _ => ⟨rfl, rfl, rfl⟩

/-- C6: `update_view` never mutates the model: for every implementation and
instance state, the model after invoking `update_view` on the instance is
the model before (the receiver is immutable); additionally, the default
`update_view` body leaves the widgets unchanged and emits nothing. -/
theorem update_view_preserves_model :
    ∀ (Init Ix Rt RW S OS E M W I C O P : Type)
      (fc : FactoryComponent Init Ix Rt RW S OS E M W I C O P)
      (st : InstanceState M W) (s : S),
      (runUpdateView fc st s).1.model = st.model ∧
      @update_view_default M W S E st.model st.widgets s = (st.widgets, []) :=
  fun _ _ _ _ _ _ _ _ _ _ _ _ _ _ _ _ => ⟨rfl, rfl⟩

/-- C7 counterexample: an implementation whose `shutdown` rewrites the
widgets bundle.  A lifecycle run that delivers no message (so neither
`update_view` nor `update_with_view` nor `update_cmd_with_view` ever runs)
ends with widgets 1 when `shutdown` runs, although the bundle was created
with value 0 (as the run without `shutdown` shows): an operation other than
the three view operations mutated the widgets. -/
theorem widgets_mutated_by_shutdown_cex :
    (runInstance shutdownMutator () () () () () [] true).widgets = 1 ∧
    (runInstance shutdownMutator () () () () () [] false).widgets = 0 ∧
    (1 : Nat) ≠ 0 :=
  ⟨rfl, rfl, by decide⟩

/-- C7 amended: in every lifecycle trace the widgets bundle is created
exactly once, by `init_widgets` (it occurs in the initialisation prefix and
never afterwards), and of the operations outside the
`update_view`/`update_with_view`/`update_cmd_with_view` family and
`shutdown`, none can mutate the bundle: `update` and `update_cmd` carry the
widgets of the instance through unchanged for every implementation. -/
theorem widgets_mutation_confined :
    ∀ (Init Ix Rt RW S OS E M W I C O P : Type)
      (fc : FactoryComponent Init Ix Rt RW S OS E M W I C O P)
      (st : InstanceState M W) (i : I) (c : C) (s : S)
      (msgs : List (LiveMsg I C)) (shut : Bool),
      (lifecycleCalls msgs shut).take 3 = initCalls ∧
      MCall.initWidgetsC ∉ (lifecycleCalls msgs shut).drop 3 ∧
      (runUpdate fc st i s).1.widgets = st.widgets ∧
      (runUpdateCmd fc st c s).1.widgets = st.widgets := by
  intro Init Ix Rt RW S OS E M W I C O P fc st i c s msgs shut
  refine ⟨rfl, ?_, rfl, rfl⟩
  exact not_mem_tail MCall.initWidgetsC msgs shut
    (fun m => (liveCall_ne m).2.2.1) (by decide)

/-- C8: the trait has no error channel: a method result is a Rust `Option`
exactly when the method is `output_to_parent_input` (whose `Option` encodes
an optional translation, not a failure), and no method signature returns a
`Result`. -/
theorem contract_methods_infallible :
    (∀ m : TraitMethod,
      returnShape m = ReturnShape.optionValue ↔ m = TraitMethod.output_to_parent_input) ∧
    (∀ m : TraitMethod, returnShape m ≠ ReturnShape.resultValue) := by
  constructor
  · intro m; cases m <;> simp [returnShape]
  · intro m; cases m <;> simp [returnShape]

/-- C9: the modelled lifecycle is the three-phase machine: the first three
calls are `init_model`, `init_root`, `init_widgets` in that order; none of
the three initialisation calls recurs after that prefix (so each runs
exactly once, before any update-family call); and `shutdown` never occurs
strictly before the end of the trace, hence it runs at most once and no
call is observed after it. -/
theorem lifecycle_three_phase :
    ∀ (I C : Type) (msgs : List (LiveMsg I C)) (shut : Bool),
      (lifecycleCalls msgs shut).take 3 = initCalls ∧
      MCall.initModelC ∉ (lifecycleCalls msgs shut).drop 3 ∧
      MCall.initRootC ∉ (lifecycleCalls msgs shut).drop 3 ∧
      MCall.initWidgetsC ∉ (lifecycleCalls msgs shut).drop 3 ∧
      MCall.shutdownC ∉ (lifecycleCalls msgs shut).dropLast := by
  intro I C msgs shut
  refine ⟨rfl, ?_, ?_, ?_, shutdown_last msgs shut⟩
  · exact not_mem_tail MCall.initModelC msgs shut
      (fun m => (liveCall_ne m).1) (by decide)
  · exact not_mem_tail MCall.initRootC msgs shut
      (fun m => (liveCall_ne m).2.1) (by decide)
  · exact not_mem_tail MCall.initWidgetsC msgs shut
      (fun m => (liveCall_ne m).2.2.1) (by decide)

/-- C4: the default `id` formats the stack address of the local `self`
reference of the call, not the address of the component, so two distinct
live instances (here at the distinct addresses 4096 and 8192, with distinct
model states) whose `id` calls store the `self` reference at the same stack
address receive the same identifier string. -/
theorem id_default_collision_across_instances :
    callIdDefault (LiveInstance.mk 4096 (0 : Nat)) 256 =
      callIdDefault (LiveInstance.mk 8192 (1 : Nat)) 256 ∧
    (4096 : Nat) ≠ 8192 :=
  ⟨rfl, by decide⟩

/-- C10: the default `id` is independent of the model state: for any two
instances with arbitrary models (of arbitrary types) and any addresses, a
call whose `self` reference sits at the same stack slot yields the same
string, so the identifier reveals nothing about the model contents. -/
theorem id_default_model_noninterference :
    ∀ (M₁ M₂ : Type) (m₁ : M₁) (m₂ : M₂) (a₁ a₂ slot : Nat),
      callIdDefault ⟨a₁, m₁⟩ slot = callIdDefault ⟨a₂, m₂⟩ slot :=
  fun _ _ _ _ _ _ _ => rfl

end ClaimTheorems
